import Mathlib

/-!
Shallow embedding of the iterator-zipper crate (`src/lib.rs`).

A Rust iterator is modelled as a record `Iter σ α`: a state type `σ`, a
step function `next : σ → Option α × σ` (the returned state captures the
in-place mutation of `self`, also on exhaustion), and
`sizeHint : σ → Nat × Option Nat` mirroring `Iterator::size_hint`.

`Zip2` … `Zip5` translate the four `impl Iterator for ZipK` blocks: `next`
is the nested `if let Some(..) = self.i.next()` cascade (left to right,
stopping at the first exhausted component) and `sizeHint` is the
right-nested `min!` of the components' lower bounds paired with `None`.

`YieldsTo it s xs t` is the drain relation: starting from state `s`,
repeatedly calling `next` until it first returns `none` produces exactly
the list `xs` and leaves the iterator in state `t`.
-/

namespace ZipRs

structure Iter (σ : Type) (α : Type) where
  next : σ → Option α × σ
  sizeHint : σ → Nat × Option Nat

/-- Embedding of `Zip2::next` and `Zip2::size_hint` (lib.rs lines 102-117). -/
def Zip2 {σa σb α β : Type} (ia : Iter σa α) (ib : Iter σb β) :
    Iter (σa × σb) (α × β) where
  next s :=
    match ia.next s.1 with
    | (some a, sa) =>
      match ib.next s.2 with
      | (some b, sb) => (some (a, b), (sa, sb))
      | (none, sb) => (none, (sa, sb))
    | (none, sa) => (none, (sa, s.2))
  sizeHint s :=
    (min (ia.sizeHint s.1).1 (ib.sizeHint s.2).1, none)

/-- Embedding of `Zip3::next` and `Zip3::size_hint` (lib.rs lines 130-148). -/
def Zip3 {σa σb σc α β γ : Type} (ia : Iter σa α) (ib : Iter σb β) (ic : Iter σc γ) :
    Iter (σa × σb × σc) (α × β × γ) where
  next s :=
    match ia.next s.1 with
    | (some a, sa) =>
      match ib.next s.2.1 with
      | (some b, sb) =>
        match ic.next s.2.2 with
        | (some c, sc) => (some (a, b, c), (sa, sb, sc))
        | (none, sc) => (none, (sa, sb, sc))
      | (none, sb) => (none, (sa, sb, s.2.2))
    | (none, sa) => (none, (sa, s.2.1, s.2.2))
  sizeHint s :=
    (min (ia.sizeHint s.1).1 (min (ib.sizeHint s.2.1).1 (ic.sizeHint s.2.2).1), none)

/-- Embedding of `Zip4::next` and `Zip4::size_hint` (lib.rs lines 162-183). -/
def Zip4 {σa σb σc σd α β γ δ : Type}
    (ia : Iter σa α) (ib : Iter σb β) (ic : Iter σc γ) (id' : Iter σd δ) :
    Iter (σa × σb × σc × σd) (α × β × γ × δ) where
  next s :=
    match ia.next s.1 with
    | (some a, sa) =>
      match ib.next s.2.1 with
      | (some b, sb) =>
        match ic.next s.2.2.1 with
        | (some c, sc) =>
          match id'.next s.2.2.2 with
          | (some d, sd) => (some (a, b, c, d), (sa, sb, sc, sd))
          | (none, sd) => (none, (sa, sb, sc, sd))
        | (none, sc) => (none, (sa, sb, sc, s.2.2.2))
      | (none, sb) => (none, (sa, sb, s.2.2.1, s.2.2.2))
    | (none, sa) => (none, (sa, s.2.1, s.2.2.1, s.2.2.2))
  sizeHint s :=
    (min (ia.sizeHint s.1).1
      (min (ib.sizeHint s.2.1).1
        (min (ic.sizeHint s.2.2.1).1 (id'.sizeHint s.2.2.2).1)), none)

/-- Embedding of `Zip5::next` and `Zip5::size_hint` (lib.rs lines 198-222). -/
def Zip5 {σa σb σc σd σe α β γ δ ε : Type}
    (ia : Iter σa α) (ib : Iter σb β) (ic : Iter σc γ) (id' : Iter σd δ)
    (ie' : Iter σe ε) :
    Iter (σa × σb × σc × σd × σe) (α × β × γ × δ × ε) where
  next s :=
    match ia.next s.1 with
    | (some a, sa) =>
      match ib.next s.2.1 with
      | (some b, sb) =>
        match ic.next s.2.2.1 with
        | (some c, sc) =>
          match id'.next s.2.2.2.1 with
          | (some d, sd) =>
            match ie'.next s.2.2.2.2 with
            | (some e, se) => (some (a, b, c, d, e), (sa, sb, sc, sd, se))
            | (none, se) => (none, (sa, sb, sc, sd, se))
          | (none, sd) => (none, (sa, sb, sc, sd, s.2.2.2.2))
        | (none, sc) => (none, (sa, sb, sc, s.2.2.2.1, s.2.2.2.2))
      | (none, sb) => (none, (sa, sb, s.2.2.1, s.2.2.2.1, s.2.2.2.2))
    | (none, sa) => (none, (sa, s.2.1, s.2.2.1, s.2.2.2.1, s.2.2.2.2))
  sizeHint s :=
    (min (ia.sizeHint s.1).1
      (min (ib.sizeHint s.2.1).1
        (min (ic.sizeHint s.2.2.1).1
          (min (id'.sizeHint s.2.2.2.1).1 (ie'.sizeHint s.2.2.2.2).1))), none)

/-- Draining relation: from state `s`, repeatedly calling `next` until it
first returns `none` yields exactly the list `xs` and ends in state `t`
(the state left behind by the final, exhausting call). -/
inductive YieldsTo {σ α : Type} (it : Iter σ α) : σ → List α → σ → Prop
  | nil {s t : σ} : it.next s = (none, t) → YieldsTo it s [] t
  | cons {s s' t : σ} {a : α} {xs : List α} :
      it.next s = (some a, s') → YieldsTo it s' xs t → YieldsTo it s (a :: xs) t

/-- The canonical finite producer with exact remaining count: a list-backed
iterator (models a Rust slice iterator, whose `size_hint` is exact). -/
def listIter (α : Type) : Iter (List α) α where
  next l :=
    match l with
    | [] => (none, [])
    | x :: xs => (some x, xs)
  sizeHint l := (l.length, some l.length)

/-- Reference 3-ary zip on lists, truncating to the shortest input. -/
def zip3Ref {α β γ : Type} : List α → List β → List γ → List (α × β × γ)
  | a :: xs, b :: ys, c :: zs => (a, b, c) :: zip3Ref xs ys zs
  | _, _, _ => []

/-- Reference 4-ary zip on lists, truncating to the shortest input. -/
def zip4Ref {α β γ δ : Type} : List α → List β → List γ → List δ → List (α × β × γ × δ)
  | a :: xs, b :: ys, c :: zs, d :: ws => (a, b, c, d) :: zip4Ref xs ys zs ws
  | _, _, _, _ => []

/-- Reference 5-ary zip on lists, truncating to the shortest input. -/
def zip5Ref {α β γ δ ε : Type} :
    List α → List β → List γ → List δ → List ε → List (α × β × γ × δ × ε)
  | a :: xs, b :: ys, c :: zs, d :: ws, e :: vs => (a, b, c, d, e) :: zip5Ref xs ys zs ws vs
  | _, _, _, _, _ => []

theorem yieldsTo_unique {σ α : Type} {it : Iter σ α} {s : σ} {xs ys : List α} {t u : σ}
    (hx : YieldsTo it s xs t) (hy : YieldsTo it s ys u) : xs = ys ∧ t = u := by
  induction hx generalizing ys u with
  | nil h =>
    cases hy with
    | nil h' => rw [h] at h'; exact ⟨rfl, (Prod.mk.injEq _ _ _ _ ▸ h').2⟩
    | cons h' _ => rw [h] at h'; simp at h'
  | cons h _ ih =>
    cases hy with
    | nil h' => rw [h] at h'; simp at h'
    | cons h' hy' =>
      rw [h] at h'
      obtain ⟨ha, hs⟩ := Prod.mk.injEq _ _ _ _ ▸ h'
      obtain ⟨hxs, ht⟩ := ih (hs ▸ hy')
      exact ⟨by rw [Option.some.injEq] at ha; rw [ha, hxs], ht⟩

theorem listIter_yieldsTo {α : Type} (xs : List α) :
    YieldsTo (listIter α) xs xs [] := by
  induction xs with
  | nil => exact YieldsTo.nil rfl
  | cons x xs ih => exact YieldsTo.cons rfl ih

theorem zip2_drain {σa σb α β : Type} {ia : Iter σa α} {ib : Iter σb β}
    {sa : σa} {sb : σb} {xs : List α} {ys : List β} {ta : σa} {tb : σb}
    (ha : YieldsTo ia sa xs ta) (hb : YieldsTo ib sb ys tb) :
    ∃ t, YieldsTo (Zip2 ia ib) (sa, sb) (xs.zip ys) t := by
  induction ha generalizing sb ys tb with
  | nil h => exact ⟨_, YieldsTo.nil (by simp [Zip2, h]; rfl)⟩
  | cons h _ ih =>
    cases hb with
    | nil h' => exact ⟨_, YieldsTo.nil (by simp [Zip2, h, h']; rfl)⟩
    | cons h' hb' =>
      obtain ⟨t, ht⟩ := ih hb'
      exact ⟨t, YieldsTo.cons (by simp [Zip2, h, h']) ht⟩

theorem zip3_drain {σa σb σc α β γ : Type}
    {ia : Iter σa α} {ib : Iter σb β} {ic : Iter σc γ}
    {sa : σa} {sb : σb} {sc : σc} {xs : List α} {ys : List β} {zs : List γ}
    {ta : σa} {tb : σb} {tc : σc}
    (ha : YieldsTo ia sa xs ta) (hb : YieldsTo ib sb ys tb)
    (hc : YieldsTo ic sc zs tc) :
    ∃ t, YieldsTo (Zip3 ia ib ic) (sa, sb, sc) (zip3Ref xs ys zs) t := by
  induction ha generalizing sb ys tb sc zs tc with
  | nil h => exact ⟨_, YieldsTo.nil (by simp [Zip3, h]; rfl)⟩
  | cons h _ ih =>
    cases hb with
    | nil h' => exact ⟨_, YieldsTo.nil (by simp [Zip3, h, h']; rfl)⟩
    | cons h' hb' =>
      cases hc with
      | nil h'' => exact ⟨_, YieldsTo.nil (by simp [Zip3, h, h', h'']; rfl)⟩
      | cons h'' hc' =>
        obtain ⟨t, ht⟩ := ih hb' hc'
        exact ⟨t, YieldsTo.cons (by simp [Zip3, h, h', h'']) ht⟩

theorem zip4_drain {σa σb σc σd α β γ δ : Type}
    {ia : Iter σa α} {ib : Iter σb β} {ic : Iter σc γ} {id' : Iter σd δ}
    {sa : σa} {sb : σb} {sc : σc} {sd : σd}
    {xs : List α} {ys : List β} {zs : List γ} {ws : List δ}
    {ta : σa} {tb : σb} {tc : σc} {td : σd}
    (ha : YieldsTo ia sa xs ta) (hb : YieldsTo ib sb ys tb)
    (hc : YieldsTo ic sc zs tc) (hd : YieldsTo id' sd ws td) :
    ∃ t, YieldsTo (Zip4 ia ib ic id') (sa, sb, sc, sd) (zip4Ref xs ys zs ws) t := by
  induction ha generalizing sb ys tb sc zs tc sd ws td with
  | nil h => exact ⟨_, YieldsTo.nil (by simp [Zip4, h]; rfl)⟩
  | cons h _ ih =>
    cases hb with
    | nil h' => exact ⟨_, YieldsTo.nil (by simp [Zip4, h, h']; rfl)⟩
    | cons h' hb' =>
      cases hc with
      | nil h'' => exact ⟨_, YieldsTo.nil (by simp [Zip4, h, h', h'']; rfl)⟩
      | cons h'' hc' =>
        cases hd with
        | nil h3 => exact ⟨_, YieldsTo.nil (by simp [Zip4, h, h', h'', h3]; rfl)⟩
        | cons h3 hd' =>
          obtain ⟨t, ht⟩ := ih hb' hc' hd'
          exact ⟨t, YieldsTo.cons (by simp [Zip4, h, h', h'', h3]) ht⟩

theorem zip5_drain {σa σb σc σd σe α β γ δ ε : Type}
    {ia : Iter σa α} {ib : Iter σb β} {ic : Iter σc γ} {id' : Iter σd δ}
    {ie' : Iter σe ε}
    {sa : σa} {sb : σb} {sc : σc} {sd : σd} {se : σe}
    {xs : List α} {ys : List β} {zs : List γ} {ws : List δ} {vs : List ε}
    {ta : σa} {tb : σb} {tc : σc} {td : σd} {te : σe}
    (ha : YieldsTo ia sa xs ta) (hb : YieldsTo ib sb ys tb)
    (hc : YieldsTo ic sc zs tc) (hd : YieldsTo id' sd ws td)
    (he : YieldsTo ie' se vs te) :
    ∃ t, YieldsTo (Zip5 ia ib ic id' ie') (sa, sb, sc, sd, se)
      (zip5Ref xs ys zs ws vs) t := by
  induction ha generalizing sb ys tb sc zs tc sd ws td se vs te with
  | nil h => exact ⟨_, YieldsTo.nil (by simp [Zip5, h]; rfl)⟩
  | cons h _ ih =>
    cases hb with
    | nil h' => exact ⟨_, YieldsTo.nil (by simp [Zip5, h, h']; rfl)⟩
    | cons h' hb' =>
      cases hc with
      | nil h'' => exact ⟨_, YieldsTo.nil (by simp [Zip5, h, h', h'']; rfl)⟩
      | cons h'' hc' =>
        cases hd with
        | nil h3 => exact ⟨_, YieldsTo.nil (by simp [Zip5, h, h', h'', h3]; rfl)⟩
        | cons h3 hd' =>
          cases he with
          | nil h4 => exact ⟨_, YieldsTo.nil (by simp [Zip5, h, h', h'', h3, h4]; rfl)⟩
          | cons h4 he' =>
            obtain ⟨t, ht⟩ := ih hb' hc' hd' he'
            exact ⟨t, YieldsTo.cons (by simp [Zip5, h, h', h'', h3, h4]) ht⟩

theorem zip3Ref_length {α β γ : Type} (xs : List α) (ys : List β) (zs : List γ) :
    (zip3Ref xs ys zs).length = min xs.length (min ys.length zs.length) := by
  induction xs generalizing ys zs with
  | nil => simp [zip3Ref]
  | cons x xs ih =>
    cases ys with
    | nil => simp [zip3Ref]
    | cons y ys =>
      cases zs with
      | nil => simp [zip3Ref]
      | cons z zs => simp [zip3Ref, ih, Nat.succ_min_succ]

theorem zip4Ref_length {α β γ δ : Type}
    (xs : List α) (ys : List β) (zs : List γ) (ws : List δ) :
    (zip4Ref xs ys zs ws).length =
      min xs.length (min ys.length (min zs.length ws.length)) := by
  induction xs generalizing ys zs ws with
  | nil => simp [zip4Ref]
  | cons x xs ih =>
    cases ys with
    | nil => simp [zip4Ref]
    | cons y ys =>
      cases zs with
      | nil => simp [zip4Ref]
      | cons z zs =>
        cases ws with
        | nil => simp [zip4Ref]
        | cons w ws => simp [zip4Ref, ih, Nat.succ_min_succ]

theorem zip5Ref_length {α β γ δ ε : Type}
    (xs : List α) (ys : List β) (zs : List γ) (ws : List δ) (vs : List ε) :
    (zip5Ref xs ys zs ws vs).length =
      min xs.length (min ys.length (min zs.length (min ws.length vs.length))) := by
  induction xs generalizing ys zs ws vs with
  | nil => simp [zip5Ref]
  | cons x xs ih =>
    cases ys with
    | nil => simp [zip5Ref]
    | cons y ys =>
      cases zs with
      | nil => simp [zip5Ref]
      | cons z zs =>
        cases ws with
        | nil => simp [zip5Ref]
        | cons w ws =>
          cases vs with
          | nil => simp [zip5Ref]
          | cons v vs => simp [zip5Ref, ih, Nat.succ_min_succ]

theorem zip_zip_flatten {α β γ : Type} :
    ∀ (xs : List α) (ys : List β) (zs : List γ),
      ((xs.zip ys).zip zs).map (fun p => (p.1.1, p.1.2, p.2)) = zip3Ref xs ys zs := by
  intro xs
  induction xs with
  | nil => intro ys zs; simp [zip3Ref]
  | cons x xs ih =>
    intro ys zs
    cases ys with
    | nil => simp [zip3Ref]
    | cons y ys =>
      cases zs with
      | nil => simp [zip3Ref]
      | cons z zs => simp [zip3Ref, ih]

theorem zip_comm_swap {α β : Type} :
    ∀ (xs : List α) (ys : List β),
      ys.zip xs = (xs.zip ys).map (fun p => (p.2, p.1)) := by
  intro xs
  induction xs with
  | nil => intro ys; cases ys <;> simp
  | cons x xs ih =>
    intro ys
    cases ys with
    | nil => simp
    | cons y ys => simp [ih]

theorem zip2_list_drain_final {α β : Type} :
    ∀ (ys : List β) (xs : List α), ys.length < xs.length →
      YieldsTo (Zip2 (listIter α) (listIter β)) (xs, ys) (xs.zip ys)
        (xs.drop (ys.length + 1), []) := by
  intro ys
  induction ys with
  | nil =>
    intro xs h
    cases xs with
    | nil => simp at h
    | cons x xs => exact YieldsTo.nil rfl
  | cons y ys ih =>
    intro xs h
    cases xs with
    | nil => simp at h
    | cons x xs =>
      have h' : ys.length < xs.length := by simpa using h
      exact YieldsTo.cons rfl (ih xs h')

/-- C4: for every K in 2..5 and every Zip-K state, the upper-bound component
of `size_hint` is `none`, whatever the wrapped producers report. -/
theorem c4_upper_bound_always_none :
    (∀ {σa σb α β : Type} (ia : Iter σa α) (ib : Iter σb β) (sa : σa) (sb : σb),
      ((Zip2 ia ib).sizeHint (sa, sb)).2 = none) ∧
    (∀ {σa σb σc α β γ : Type} (ia : Iter σa α) (ib : Iter σb β) (ic : Iter σc γ)
      (sa : σa) (sb : σb) (sc : σc),
      ((Zip3 ia ib ic).sizeHint (sa, sb, sc)).2 = none) ∧
    (∀ {σa σb σc σd α β γ δ : Type} (ia : Iter σa α) (ib : Iter σb β)
      (ic : Iter σc γ) (id' : Iter σd δ) (sa : σa) (sb : σb) (sc : σc) (sd : σd),
      ((Zip4 ia ib ic id').sizeHint (sa, sb, sc, sd)).2 = none) ∧
    (∀ {σa σb σc σd σe α β γ δ ε : Type} (ia : Iter σa α) (ib : Iter σb β)
      (ic : Iter σc γ) (id' : Iter σd δ) (ie' : Iter σe ε)
      (sa : σa) (sb : σb) (sc : σc) (sd : σd) (se : σe),
      ((Zip5 ia ib ic id' ie').sizeHint (sa, sb, sc, sd, se)).2 = none) :=
  ⟨fun _ _ _ _ => rfl, fun _ _ _ _ _ _ => rfl, fun _ _ _ _ _ _ _ _ => rfl,
    fun _ _ _ _ _ _ _ _ _ _ => rfl⟩

/-- C5: for every K in 2..5, the lower-bound component of `size_hint` is the
minimum of the K wrapped producers' own lower bounds. -/
theorem c5_lower_bound_is_min :
    (∀ {σa σb α β : Type} (ia : Iter σa α) (ib : Iter σb β) (sa : σa) (sb : σb),
      ((Zip2 ia ib).sizeHint (sa, sb)).1 =
        min (ia.sizeHint sa).1 (ib.sizeHint sb).1) ∧
    (∀ {σa σb σc α β γ : Type} (ia : Iter σa α) (ib : Iter σb β) (ic : Iter σc γ)
      (sa : σa) (sb : σb) (sc : σc),
      ((Zip3 ia ib ic).sizeHint (sa, sb, sc)).1 =
        min (ia.sizeHint sa).1 (min (ib.sizeHint sb).1 (ic.sizeHint sc).1)) ∧
    (∀ {σa σb σc σd α β γ δ : Type} (ia : Iter σa α) (ib : Iter σb β)
      (ic : Iter σc γ) (id' : Iter σd δ) (sa : σa) (sb : σb) (sc : σc) (sd : σd),
      ((Zip4 ia ib ic id').sizeHint (sa, sb, sc, sd)).1 =
        min (ia.sizeHint sa).1
          (min (ib.sizeHint sb).1 (min (ic.sizeHint sc).1 (id'.sizeHint sd).1))) ∧
    (∀ {σa σb σc σd σe α β γ δ ε : Type} (ia : Iter σa α) (ib : Iter σb β)
      (ic : Iter σc γ) (id' : Iter σd δ) (ie' : Iter σe ε)
      (sa : σa) (sb : σb) (sc : σc) (sd : σd) (se : σe),
      ((Zip5 ia ib ic id' ie').sizeHint (sa, sb, sc, sd, se)).1 =
        min (ia.sizeHint sa).1
          (min (ib.sizeHint sb).1
            (min (ic.sizeHint sc).1 (min (id'.sizeHint sd).1 (ie'.sizeHint se).1)))) :=
  ⟨fun _ _ _ _ => rfl, fun _ _ _ _ _ _ => rfl, fun _ _ _ _ _ _ _ _ => rfl,
    fun _ _ _ _ _ _ _ _ _ _ => rfl⟩

/-- C1: for every K in 2..5, draining a Zip-K whose K wrapped producers yield
exactly n1..nK elements produces exactly min(n1..nK) tuples. -/
theorem c1_drain_length_is_min :
    (∀ {σa σb α β : Type} (ia : Iter σa α) (ib : Iter σb β) (sa : σa) (sb : σb)
      (xs : List α) (ys : List β) (ta : σa) (tb : σb),
      YieldsTo ia sa xs ta → YieldsTo ib sb ys tb →
      ∀ (zs : List (α × β)) (t : σa × σb),
        YieldsTo (Zip2 ia ib) (sa, sb) zs t →
        zs.length = min xs.length ys.length) ∧
    (∀ {σa σb σc α β γ : Type} (ia : Iter σa α) (ib : Iter σb β) (ic : Iter σc γ)
      (sa : σa) (sb : σb) (sc : σc) (xs : List α) (ys : List β) (zs : List γ)
      (ta : σa) (tb : σb) (tc : σc),
      YieldsTo ia sa xs ta → YieldsTo ib sb ys tb → YieldsTo ic sc zs tc →
      ∀ (vs : List (α × β × γ)) (t : σa × σb × σc),
        YieldsTo (Zip3 ia ib ic) (sa, sb, sc) vs t →
        vs.length = min xs.length (min ys.length zs.length)) ∧
    (∀ {σa σb σc σd α β γ δ : Type} (ia : Iter σa α) (ib : Iter σb β)
      (ic : Iter σc γ) (id' : Iter σd δ) (sa : σa) (sb : σb) (sc : σc) (sd : σd)
      (xs : List α) (ys : List β) (zs : List γ) (ws : List δ)
      (ta : σa) (tb : σb) (tc : σc) (td : σd),
      YieldsTo ia sa xs ta → YieldsTo ib sb ys tb → YieldsTo ic sc zs tc →
      YieldsTo id' sd ws td →
      ∀ (vs : List (α × β × γ × δ)) (t : σa × σb × σc × σd),
        YieldsTo (Zip4 ia ib ic id') (sa, sb, sc, sd) vs t →
        vs.length = min xs.length (min ys.length (min zs.length ws.length))) ∧
    (∀ {σa σb σc σd σe α β γ δ ε : Type} (ia : Iter σa α) (ib : Iter σb β)
      (ic : Iter σc γ) (id' : Iter σd δ) (ie' : Iter σe ε)
      (sa : σa) (sb : σb) (sc : σc) (sd : σd) (se : σe)
      (xs : List α) (ys : List β) (zs : List γ) (ws : List δ) (us : List ε)
      (ta : σa) (tb : σb) (tc : σc) (td : σd) (te : σe),
      YieldsTo ia sa xs ta → YieldsTo ib sb ys tb → YieldsTo ic sc zs tc →
      YieldsTo id' sd ws td → YieldsTo ie' se us te →
      ∀ (vs : List (α × β × γ × δ × ε)) (t : σa × σb × σc × σd × σe),
        YieldsTo (Zip5 ia ib ic id' ie') (sa, sb, sc, sd, se) vs t →
        vs.length =
          min xs.length (min ys.length (min zs.length (min ws.length us.length)))) := by
  refine ⟨?_, ?_, ?_, ?_⟩
  · intro _ _ _ _ ia ib sa sb xs ys ta tb ha hb zs t hz
    obtain ⟨u, hu⟩ := zip2_drain ha hb
    obtain ⟨he, -⟩ := yieldsTo_unique hz hu
    rw [he, List.length_zip]
  · intro _ _ _ _ _ _ ia ib ic sa sb sc xs ys zs ta tb tc ha hb hc vs t hv
    obtain ⟨u, hu⟩ := zip3_drain ha hb hc
    obtain ⟨he, -⟩ := yieldsTo_unique hv hu
    rw [he, zip3Ref_length]
  · intro _ _ _ _ _ _ _ _ ia ib ic id' sa sb sc sd xs ys zs ws ta tb tc td
      ha hb hc hd vs t hv
    obtain ⟨u, hu⟩ := zip4_drain ha hb hc hd
    obtain ⟨he, -⟩ := yieldsTo_unique hv hu
    rw [he, zip4Ref_length]
  · intro _ _ _ _ _ _ _ _ _ _ ia ib ic id' ie' sa sb sc sd se xs ys zs ws us
      ta tb tc td te ha hb hc hd he' vs t hv
    obtain ⟨u, hu⟩ := zip5_drain ha hb hc hd he'
    obtain ⟨he, -⟩ := yieldsTo_unique hv hu
    rw [he, zip5Ref_length]

/-- C1 witness: Zip2 over producers of 3 and 2 elements drains to exactly
min 3 2 = 2 tuples. -/
theorem c1_witness :
    ([((1 : Nat), (10 : Nat)), (2, 20)]).length =
      min ([1, 2, 3] : List Nat).length ([10, 20] : List Nat).length :=
  c1_drain_length_is_min.1 (listIter Nat) (listIter Nat) [1, 2, 3] [10, 20]
    [1, 2, 3] [10, 20] [] [] (listIter_yieldsTo _) (listIter_yieldsTo _)
    [(1, 10), (2, 20)] ([], [])
    (YieldsTo.cons rfl (YieldsTo.cons rfl (YieldsTo.nil rfl)))

/-- C2: for every K in 2..5, the drained output of a Zip-K is exactly the
element-wise K-ary zip of the producers' outputs, truncated to the shortest,
tuples in declared producer order and unaltered. -/
theorem c2_drain_is_reference_zip :
    (∀ {σa σb α β : Type} (ia : Iter σa α) (ib : Iter σb β) (sa : σa) (sb : σb)
      (xs : List α) (ys : List β) (ta : σa) (tb : σb),
      YieldsTo ia sa xs ta → YieldsTo ib sb ys tb →
      ∀ (zs : List (α × β)) (t : σa × σb),
        YieldsTo (Zip2 ia ib) (sa, sb) zs t → zs = xs.zip ys) ∧
    (∀ {σa σb σc α β γ : Type} (ia : Iter σa α) (ib : Iter σb β) (ic : Iter σc γ)
      (sa : σa) (sb : σb) (sc : σc) (xs : List α) (ys : List β) (zs : List γ)
      (ta : σa) (tb : σb) (tc : σc),
      YieldsTo ia sa xs ta → YieldsTo ib sb ys tb → YieldsTo ic sc zs tc →
      ∀ (vs : List (α × β × γ)) (t : σa × σb × σc),
        YieldsTo (Zip3 ia ib ic) (sa, sb, sc) vs t → vs = zip3Ref xs ys zs) ∧
    (∀ {σa σb σc σd α β γ δ : Type} (ia : Iter σa α) (ib : Iter σb β)
      (ic : Iter σc γ) (id' : Iter σd δ) (sa : σa) (sb : σb) (sc : σc) (sd : σd)
      (xs : List α) (ys : List β) (zs : List γ) (ws : List δ)
      (ta : σa) (tb : σb) (tc : σc) (td : σd),
      YieldsTo ia sa xs ta → YieldsTo ib sb ys tb → YieldsTo ic sc zs tc →
      YieldsTo id' sd ws td →
      ∀ (vs : List (α × β × γ × δ)) (t : σa × σb × σc × σd),
        YieldsTo (Zip4 ia ib ic id') (sa, sb, sc, sd) vs t →
        vs = zip4Ref xs ys zs ws) ∧
    (∀ {σa σb σc σd σe α β γ δ ε : Type} (ia : Iter σa α) (ib : Iter σb β)
      (ic : Iter σc γ) (id' : Iter σd δ) (ie' : Iter σe ε)
      (sa : σa) (sb : σb) (sc : σc) (sd : σd) (se : σe)
      (xs : List α) (ys : List β) (zs : List γ) (ws : List δ) (us : List ε)
      (ta : σa) (tb : σb) (tc : σc) (td : σd) (te : σe),
      YieldsTo ia sa xs ta → YieldsTo ib sb ys tb → YieldsTo ic sc zs tc →
      YieldsTo id' sd ws td → YieldsTo ie' se us te →
      ∀ (vs : List (α × β × γ × δ × ε)) (t : σa × σb × σc × σd × σe),
        YieldsTo (Zip5 ia ib ic id' ie') (sa, sb, sc, sd, se) vs t →
        vs = zip5Ref xs ys zs ws us) := by
  refine ⟨?_, ?_, ?_, ?_⟩
  · intro _ _ _ _ ia ib sa sb xs ys ta tb ha hb zs t hz
    obtain ⟨u, hu⟩ := zip2_drain ha hb
    exact (yieldsTo_unique hz hu).1
  · intro _ _ _ _ _ _ ia ib ic sa sb sc xs ys zs ta tb tc ha hb hc vs t hv
    obtain ⟨u, hu⟩ := zip3_drain ha hb hc
    exact (yieldsTo_unique hv hu).1
  · intro _ _ _ _ _ _ _ _ ia ib ic id' sa sb sc sd xs ys zs ws ta tb tc td
      ha hb hc hd vs t hv
    obtain ⟨u, hu⟩ := zip4_drain ha hb hc hd
    exact (yieldsTo_unique hv hu).1
  · intro _ _ _ _ _ _ _ _ _ _ ia ib ic id' ie' sa sb sc sd se xs ys zs ws us
      ta tb tc td te ha hb hc hd he' vs t hv
    obtain ⟨u, hu⟩ := zip5_drain ha hb hc hd he'
    exact (yieldsTo_unique hv hu).1

/-- C2 witness: Zip3 over [1,2,3], [4,5,6], [7,8,9] drains to exactly the
3-ary reference zip [(1,4,7),(2,5,8),(3,6,9)]. -/
theorem c2_witness :
    ([((1 : Nat), (4 : Nat), (7 : Nat)), (2, 5, 8), (3, 6, 9)]) =
      zip3Ref [1, 2, 3] [4, 5, 6] [7, 8, 9] :=
  c2_drain_is_reference_zip.2.1 (listIter Nat) (listIter Nat) (listIter Nat)
    [1, 2, 3] [4, 5, 6] [7, 8, 9] [1, 2, 3] [4, 5, 6] [7, 8, 9] [] [] []
    (listIter_yieldsTo _) (listIter_yieldsTo _) (listIter_yieldsTo _)
    [(1, 4, 7), (2, 5, 8), (3, 6, 9)] ([], [], [])
    (YieldsTo.cons rfl (YieldsTo.cons rfl (YieldsTo.cons rfl (YieldsTo.nil rfl))))

/-- C6: for every K in 2..5, if each wrapped producer's reported lower bound
does not exceed its actual remaining count, the Zip-K's reported lower bound
does not exceed the number of tuples produced by a full drain. -/
theorem c6_lower_bound_sound :
    (∀ {σa σb α β : Type} (ia : Iter σa α) (ib : Iter σb β) (sa : σa) (sb : σb)
      (xs : List α) (ys : List β) (ta : σa) (tb : σb),
      YieldsTo ia sa xs ta → YieldsTo ib sb ys tb →
      (ia.sizeHint sa).1 ≤ xs.length → (ib.sizeHint sb).1 ≤ ys.length →
      ∀ (zs : List (α × β)) (t : σa × σb),
        YieldsTo (Zip2 ia ib) (sa, sb) zs t →
        ((Zip2 ia ib).sizeHint (sa, sb)).1 ≤ zs.length) ∧
    (∀ {σa σb σc α β γ : Type} (ia : Iter σa α) (ib : Iter σb β) (ic : Iter σc γ)
      (sa : σa) (sb : σb) (sc : σc) (xs : List α) (ys : List β) (zs : List γ)
      (ta : σa) (tb : σb) (tc : σc),
      YieldsTo ia sa xs ta → YieldsTo ib sb ys tb → YieldsTo ic sc zs tc →
      (ia.sizeHint sa).1 ≤ xs.length → (ib.sizeHint sb).1 ≤ ys.length →
      (ic.sizeHint sc).1 ≤ zs.length →
      ∀ (vs : List (α × β × γ)) (t : σa × σb × σc),
        YieldsTo (Zip3 ia ib ic) (sa, sb, sc) vs t →
        ((Zip3 ia ib ic).sizeHint (sa, sb, sc)).1 ≤ vs.length) ∧
    (∀ {σa σb σc σd α β γ δ : Type} (ia : Iter σa α) (ib : Iter σb β)
      (ic : Iter σc γ) (id' : Iter σd δ) (sa : σa) (sb : σb) (sc : σc) (sd : σd)
      (xs : List α) (ys : List β) (zs : List γ) (ws : List δ)
      (ta : σa) (tb : σb) (tc : σc) (td : σd),
      YieldsTo ia sa xs ta → YieldsTo ib sb ys tb → YieldsTo ic sc zs tc →
      YieldsTo id' sd ws td →
      (ia.sizeHint sa).1 ≤ xs.length → (ib.sizeHint sb).1 ≤ ys.length →
      (ic.sizeHint sc).1 ≤ zs.length → (id'.sizeHint sd).1 ≤ ws.length →
      ∀ (vs : List (α × β × γ × δ)) (t : σa × σb × σc × σd),
        YieldsTo (Zip4 ia ib ic id') (sa, sb, sc, sd) vs t →
        ((Zip4 ia ib ic id').sizeHint (sa, sb, sc, sd)).1 ≤ vs.length) ∧
    (∀ {σa σb σc σd σe α β γ δ ε : Type} (ia : Iter σa α) (ib : Iter σb β)
      (ic : Iter σc γ) (id' : Iter σd δ) (ie' : Iter σe ε)
      (sa : σa) (sb : σb) (sc : σc) (sd : σd) (se : σe)
      (xs : List α) (ys : List β) (zs : List γ) (ws : List δ) (us : List ε)
      (ta : σa) (tb : σb) (tc : σc) (td : σd) (te : σe),
      YieldsTo ia sa xs ta → YieldsTo ib sb ys tb → YieldsTo ic sc zs tc →
      YieldsTo id' sd ws td → YieldsTo ie' se us te →
      (ia.sizeHint sa).1 ≤ xs.length → (ib.sizeHint sb).1 ≤ ys.length →
      (ic.sizeHint sc).1 ≤ zs.length → (id'.sizeHint sd).1 ≤ ws.length →
      (ie'.sizeHint se).1 ≤ us.length →
      ∀ (vs : List (α × β × γ × δ × ε)) (t : σa × σb × σc × σd × σe),
        YieldsTo (Zip5 ia ib ic id' ie') (sa, sb, sc, sd, se) vs t →
        ((Zip5 ia ib ic id' ie').sizeHint (sa, sb, sc, sd, se)).1 ≤ vs.length) := by
  refine ⟨?_, ?_, ?_, ?_⟩
  · intro _ _ _ _ ia ib sa sb xs ys ta tb ha hb la lb zs t hz
    obtain ⟨u, hu⟩ := zip2_drain ha hb
    obtain ⟨he, -⟩ := yieldsTo_unique hz hu
    rw [he, List.length_zip]
    exact min_le_min la lb
  · intro _ _ _ _ _ _ ia ib ic sa sb sc xs ys zs ta tb tc ha hb hc la lb lc vs t hv
    obtain ⟨u, hu⟩ := zip3_drain ha hb hc
    obtain ⟨he, -⟩ := yieldsTo_unique hv hu
    rw [he, zip3Ref_length]
    exact min_le_min la (min_le_min lb lc)
  · intro _ _ _ _ _ _ _ _ ia ib ic id' sa sb sc sd xs ys zs ws ta tb tc td
      ha hb hc hd la lb lc ld vs t hv
    obtain ⟨u, hu⟩ := zip4_drain ha hb hc hd
    obtain ⟨he, -⟩ := yieldsTo_unique hv hu
    rw [he, zip4Ref_length]
    exact min_le_min la (min_le_min lb (min_le_min lc ld))
  · intro _ _ _ _ _ _ _ _ _ _ ia ib ic id' ie' sa sb sc sd se xs ys zs ws us
      ta tb tc td te ha hb hc hd he' la lb lc ld le' vs t hv
    obtain ⟨u, hu⟩ := zip5_drain ha hb hc hd he'
    obtain ⟨he, -⟩ := yieldsTo_unique hv hu
    rw [he, zip5Ref_length]
    exact min_le_min la (min_le_min lb (min_le_min lc (min_le_min ld le')))

/-- C6 witness: Zip2 over a 1-element and a 2-element exact producer reports
lower bound min 1 2 = 1, and the drain yields 1 tuple. -/
theorem c6_witness :
    ((Zip2 (listIter Nat) (listIter Nat)).sizeHint ([1], [2, 3])).1 ≤
      ([((1 : Nat), (2 : Nat))]).length :=
  c6_lower_bound_sound.1 (listIter Nat) (listIter Nat) [1] [2, 3] [1] [2, 3] [] []
    (listIter_yieldsTo _) (listIter_yieldsTo _) (le_refl 1) (le_refl 2)
    [(1, 2)] ([], [3]) (YieldsTo.cons rfl (YieldsTo.nil rfl))

/-- C3: for every K in 2..5 and every position i, if producers 1..i-1 yield a
value and producer i reports exhaustion on a call, the call returns `none`
and the states of producers i+1..K are left unchanged. -/
theorem c3_short_circuit_skips_later :
    (∀ {σa σb α β : Type} (ia : Iter σa α) (ib : Iter σb β) (sa : σa) (sb : σb)
      (ta : σa), ia.next sa = (none, ta) →
      ((Zip2 ia ib).next (sa, sb)).1 = none ∧
      ((Zip2 ia ib).next (sa, sb)).2.2 = sb) ∧
    (∀ {σa σb α β : Type} (ia : Iter σa α) (ib : Iter σb β) (sa : σa) (sb : σb)
      (a : α) (sa' : σa) (tb : σb),
      ia.next sa = (some a, sa') → ib.next sb = (none, tb) →
      ((Zip2 ia ib).next (sa, sb)).1 = none) ∧
    (∀ {σa σb σc α β γ : Type} (ia : Iter σa α) (ib : Iter σb β) (ic : Iter σc γ)
      (sa : σa) (sb : σb) (sc : σc) (ta : σa), ia.next sa = (none, ta) →
      ((Zip3 ia ib ic).next (sa, sb, sc)).1 = none ∧
      ((Zip3 ia ib ic).next (sa, sb, sc)).2.2 = (sb, sc)) ∧
    (∀ {σa σb σc α β γ : Type} (ia : Iter σa α) (ib : Iter σb β) (ic : Iter σc γ)
      (sa : σa) (sb : σb) (sc : σc) (a : α) (sa' : σa) (tb : σb),
      ia.next sa = (some a, sa') → ib.next sb = (none, tb) →
      ((Zip3 ia ib ic).next (sa, sb, sc)).1 = none ∧
      ((Zip3 ia ib ic).next (sa, sb, sc)).2.2.2 = sc) ∧
    (∀ {σa σb σc α β γ : Type} (ia : Iter σa α) (ib : Iter σb β) (ic : Iter σc γ)
      (sa : σa) (sb : σb) (sc : σc) (a : α) (sa' : σa) (b : β) (sb' : σb) (tc : σc),
      ia.next sa = (some a, sa') → ib.next sb = (some b, sb') →
      ic.next sc = (none, tc) →
      ((Zip3 ia ib ic).next (sa, sb, sc)).1 = none) ∧
    (∀ {σa σb σc σd α β γ δ : Type} (ia : Iter σa α) (ib : Iter σb β)
      (ic : Iter σc γ) (id' : Iter σd δ) (sa : σa) (sb : σb) (sc : σc) (sd : σd)
      (ta : σa), ia.next sa = (none, ta) →
      ((Zip4 ia ib ic id').next (sa, sb, sc, sd)).1 = none ∧
      ((Zip4 ia ib ic id').next (sa, sb, sc, sd)).2.2 = (sb, sc, sd)) ∧
    (∀ {σa σb σc σd α β γ δ : Type} (ia : Iter σa α) (ib : Iter σb β)
      (ic : Iter σc γ) (id' : Iter σd δ) (sa : σa) (sb : σb) (sc : σc) (sd : σd)
      (a : α) (sa' : σa) (tb : σb),
      ia.next sa = (some a, sa') → ib.next sb = (none, tb) →
      ((Zip4 ia ib ic id').next (sa, sb, sc, sd)).1 = none ∧
      ((Zip4 ia ib ic id').next (sa, sb, sc, sd)).2.2.2 = (sc, sd)) ∧
    (∀ {σa σb σc σd α β γ δ : Type} (ia : Iter σa α) (ib : Iter σb β)
      (ic : Iter σc γ) (id' : Iter σd δ) (sa : σa) (sb : σb) (sc : σc) (sd : σd)
      (a : α) (sa' : σa) (b : β) (sb' : σb) (tc : σc),
      ia.next sa = (some a, sa') → ib.next sb = (some b, sb') →
      ic.next sc = (none, tc) →
      ((Zip4 ia ib ic id').next (sa, sb, sc, sd)).1 = none ∧
      ((Zip4 ia ib ic id').next (sa, sb, sc, sd)).2.2.2.2 = sd) ∧
    (∀ {σa σb σc σd α β γ δ : Type} (ia : Iter σa α) (ib : Iter σb β)
      (ic : Iter σc γ) (id' : Iter σd δ) (sa : σa) (sb : σb) (sc : σc) (sd : σd)
      (a : α) (sa' : σa) (b : β) (sb' : σb) (c : γ) (sc' : σc) (td : σd),
      ia.next sa = (some a, sa') → ib.next sb = (some b, sb') →
      ic.next sc = (some c, sc') → id'.next sd = (none, td) →
      ((Zip4 ia ib ic id').next (sa, sb, sc, sd)).1 = none) ∧
    (∀ {σa σb σc σd σe α β γ δ ε : Type} (ia : Iter σa α) (ib : Iter σb β)
      (ic : Iter σc γ) (id' : Iter σd δ) (ie' : Iter σe ε)
      (sa : σa) (sb : σb) (sc : σc) (sd : σd) (se : σe) (ta : σa),
      ia.next sa = (none, ta) →
      ((Zip5 ia ib ic id' ie').next (sa, sb, sc, sd, se)).1 = none ∧
      ((Zip5 ia ib ic id' ie').next (sa, sb, sc, sd, se)).2.2 = (sb, sc, sd, se)) ∧
    (∀ {σa σb σc σd σe α β γ δ ε : Type} (ia : Iter σa α) (ib : Iter σb β)
      (ic : Iter σc γ) (id' : Iter σd δ) (ie' : Iter σe ε)
      (sa : σa) (sb : σb) (sc : σc) (sd : σd) (se : σe) (a : α) (sa' : σa) (tb : σb),
      ia.next sa = (some a, sa') → ib.next sb = (none, tb) →
      ((Zip5 ia ib ic id' ie').next (sa, sb, sc, sd, se)).1 = none ∧
      ((Zip5 ia ib ic id' ie').next (sa, sb, sc, sd, se)).2.2.2 = (sc, sd, se)) ∧
    (∀ {σa σb σc σd σe α β γ δ ε : Type} (ia : Iter σa α) (ib : Iter σb β)
      (ic : Iter σc γ) (id' : Iter σd δ) (ie' : Iter σe ε)
      (sa : σa) (sb : σb) (sc : σc) (sd : σd) (se : σe)
      (a : α) (sa' : σa) (b : β) (sb' : σb) (tc : σc),
      ia.next sa = (some a, sa') → ib.next sb = (some b, sb') →
      ic.next sc = (none, tc) →
      ((Zip5 ia ib ic id' ie').next (sa, sb, sc, sd, se)).1 = none ∧
      ((Zip5 ia ib ic id' ie').next (sa, sb, sc, sd, se)).2.2.2.2 = (sd, se)) ∧
    (∀ {σa σb σc σd σe α β γ δ ε : Type} (ia : Iter σa α) (ib : Iter σb β)
      (ic : Iter σc γ) (id' : Iter σd δ) (ie' : Iter σe ε)
      (sa : σa) (sb : σb) (sc : σc) (sd : σd) (se : σe)
      (a : α) (sa' : σa) (b : β) (sb' : σb) (c : γ) (sc' : σc) (td : σd),
      ia.next sa = (some a, sa') → ib.next sb = (some b, sb') →
      ic.next sc = (some c, sc') → id'.next sd = (none, td) →
      ((Zip5 ia ib ic id' ie').next (sa, sb, sc, sd, se)).1 = none ∧
      ((Zip5 ia ib ic id' ie').next (sa, sb, sc, sd, se)).2.2.2.2.2 = se) ∧
    (∀ {σa σb σc σd σe α β γ δ ε : Type} (ia : Iter σa α) (ib : Iter σb β)
      (ic : Iter σc γ) (id' : Iter σd δ) (ie' : Iter σe ε)
      (sa : σa) (sb : σb) (sc : σc) (sd : σd) (se : σe)
      (a : α) (sa' : σa) (b : β) (sb' : σb) (c : γ) (sc' : σc) (d : δ) (sd' : σd)
      (te : σe),
      ia.next sa = (some a, sa') → ib.next sb = (some b, sb') →
      ic.next sc = (some c, sc') → id'.next sd = (some d, sd') →
      ie'.next se = (none, te) →
      ((Zip5 ia ib ic id' ie').next (sa, sb, sc, sd, se)).1 = none) := by
  refine ⟨?_, ?_, ?_, ?_, ?_, ?_, ?_, ?_, ?_, ?_, ?_, ?_, ?_, ?_⟩
  · intro _ _ _ _ ia ib sa sb ta h1
    simp [Zip2, h1]
  · intro _ _ _ _ ia ib sa sb a sa' tb h1 h2
    simp [Zip2, h1, h2]
  · intro _ _ _ _ _ _ ia ib ic sa sb sc ta h1
    simp [Zip3, h1]
  · intro _ _ _ _ _ _ ia ib ic sa sb sc a sa' tb h1 h2
    simp [Zip3, h1, h2]
  · intro _ _ _ _ _ _ ia ib ic sa sb sc a sa' b sb' tc h1 h2 h3
    simp [Zip3, h1, h2, h3]
  · intro _ _ _ _ _ _ _ _ ia ib ic id' sa sb sc sd ta h1
    simp [Zip4, h1]
  · intro _ _ _ _ _ _ _ _ ia ib ic id' sa sb sc sd a sa' tb h1 h2
    simp [Zip4, h1, h2]
  · intro _ _ _ _ _ _ _ _ ia ib ic id' sa sb sc sd a sa' b sb' tc h1 h2 h3
    simp [Zip4, h1, h2, h3]
  · intro _ _ _ _ _ _ _ _ ia ib ic id' sa sb sc sd a sa' b sb' c sc' td h1 h2 h3 h4
    simp [Zip4, h1, h2, h3, h4]
  · intro _ _ _ _ _ _ _ _ _ _ ia ib ic id' ie' sa sb sc sd se ta h1
    simp [Zip5, h1]
  · intro _ _ _ _ _ _ _ _ _ _ ia ib ic id' ie' sa sb sc sd se a sa' tb h1 h2
    simp [Zip5, h1, h2]
  · intro _ _ _ _ _ _ _ _ _ _ ia ib ic id' ie' sa sb sc sd se a sa' b sb' tc
      h1 h2 h3
    simp [Zip5, h1, h2, h3]
  · intro _ _ _ _ _ _ _ _ _ _ ia ib ic id' ie' sa sb sc sd se a sa' b sb' c sc'
      td h1 h2 h3 h4
    simp [Zip5, h1, h2, h3, h4]
  · intro _ _ _ _ _ _ _ _ _ _ ia ib ic id' ie' sa sb sc sd se a sa' b sb' c sc'
      d sd' te h1 h2 h3 h4 h5
    simp [Zip5, h1, h2, h3, h4, h5]

/-- C3 witness: on Zip5 of an empty first producer and four nonempty ones, a
call returns `none` and producers 2..5 keep their states. -/
theorem c3_witness :
    ((Zip5 (listIter Nat) (listIter Nat) (listIter Nat) (listIter Nat)
        (listIter Nat)).next ([], [1], [2], [3], [4])).1 = none ∧
    ((Zip5 (listIter Nat) (listIter Nat) (listIter Nat) (listIter Nat)
        (listIter Nat)).next ([], [1], [2], [3], [4])).2.2 =
      ([1], [2], [3], [4]) :=
  c3_short_circuit_skips_later.2.2.2.2.2.2.2.2.2.1 (listIter Nat) (listIter Nat)
    (listIter Nat) (listIter Nat) (listIter Nat) [] [1] [2] [3] [4] [] rfl

/-- C7: on a call where producer i is the first to report exhaustion, the
producers before position i keep their advanced states (the pulled elements
are consumed, not rolled back); consequently a full drain of a Zip2 over
exact producers consumes min(n1,n2)+1 elements from the first producer when
the second is strictly shorter. -/
theorem c7_earlier_pulls_consumed :
    (∀ {σa σb α β : Type} (ia : Iter σa α) (ib : Iter σb β) (sa : σa) (sb : σb)
      (a : α) (sa' : σa) (tb : σb),
      ia.next sa = (some a, sa') → ib.next sb = (none, tb) →
      ((Zip2 ia ib).next (sa, sb)).2.1 = sa') ∧
    (∀ {σa σb σc α β γ : Type} (ia : Iter σa α) (ib : Iter σb β) (ic : Iter σc γ)
      (sa : σa) (sb : σb) (sc : σc) (a : α) (sa' : σa) (tb : σb),
      ia.next sa = (some a, sa') → ib.next sb = (none, tb) →
      ((Zip3 ia ib ic).next (sa, sb, sc)).2.1 = sa') ∧
    (∀ {σa σb σc α β γ : Type} (ia : Iter σa α) (ib : Iter σb β) (ic : Iter σc γ)
      (sa : σa) (sb : σb) (sc : σc) (a : α) (sa' : σa) (b : β) (sb' : σb) (tc : σc),
      ia.next sa = (some a, sa') → ib.next sb = (some b, sb') →
      ic.next sc = (none, tc) →
      ((Zip3 ia ib ic).next (sa, sb, sc)).2.1 = sa' ∧
      ((Zip3 ia ib ic).next (sa, sb, sc)).2.2.1 = sb') ∧
    (∀ {σa σb σc σd α β γ δ : Type} (ia : Iter σa α) (ib : Iter σb β)
      (ic : Iter σc γ) (id' : Iter σd δ) (sa : σa) (sb : σb) (sc : σc) (sd : σd)
      (a : α) (sa' : σa) (tb : σb),
      ia.next sa = (some a, sa') → ib.next sb = (none, tb) →
      ((Zip4 ia ib ic id').next (sa, sb, sc, sd)).2.1 = sa') ∧
    (∀ {σa σb σc σd α β γ δ : Type} (ia : Iter σa α) (ib : Iter σb β)
      (ic : Iter σc γ) (id' : Iter σd δ) (sa : σa) (sb : σb) (sc : σc) (sd : σd)
      (a : α) (sa' : σa) (b : β) (sb' : σb) (tc : σc),
      ia.next sa = (some a, sa') → ib.next sb = (some b, sb') →
      ic.next sc = (none, tc) →
      ((Zip4 ia ib ic id').next (sa, sb, sc, sd)).2.1 = sa' ∧
      ((Zip4 ia ib ic id').next (sa, sb, sc, sd)).2.2.1 = sb') ∧
    (∀ {σa σb σc σd α β γ δ : Type} (ia : Iter σa α) (ib : Iter σb β)
      (ic : Iter σc γ) (id' : Iter σd δ) (sa : σa) (sb : σb) (sc : σc) (sd : σd)
      (a : α) (sa' : σa) (b : β) (sb' : σb) (c : γ) (sc' : σc) (td : σd),
      ia.next sa = (some a, sa') → ib.next sb = (some b, sb') →
      ic.next sc = (some c, sc') → id'.next sd = (none, td) →
      ((Zip4 ia ib ic id').next (sa, sb, sc, sd)).2.1 = sa' ∧
      ((Zip4 ia ib ic id').next (sa, sb, sc, sd)).2.2.1 = sb' ∧
      ((Zip4 ia ib ic id').next (sa, sb, sc, sd)).2.2.2.1 = sc') ∧
    (∀ {σa σb σc σd σe α β γ δ ε : Type} (ia : Iter σa α) (ib : Iter σb β)
      (ic : Iter σc γ) (id' : Iter σd δ) (ie' : Iter σe ε)
      (sa : σa) (sb : σb) (sc : σc) (sd : σd) (se : σe) (a : α) (sa' : σa) (tb : σb),
      ia.next sa = (some a, sa') → ib.next sb = (none, tb) →
      ((Zip5 ia ib ic id' ie').next (sa, sb, sc, sd, se)).2.1 = sa') ∧
    (∀ {σa σb σc σd σe α β γ δ ε : Type} (ia : Iter σa α) (ib : Iter σb β)
      (ic : Iter σc γ) (id' : Iter σd δ) (ie' : Iter σe ε)
      (sa : σa) (sb : σb) (sc : σc) (sd : σd) (se : σe)
      (a : α) (sa' : σa) (b : β) (sb' : σb) (tc : σc),
      ia.next sa = (some a, sa') → ib.next sb = (some b, sb') →
      ic.next sc = (none, tc) →
      ((Zip5 ia ib ic id' ie').next (sa, sb, sc, sd, se)).2.1 = sa' ∧
      ((Zip5 ia ib ic id' ie').next (sa, sb, sc, sd, se)).2.2.1 = sb') ∧
    (∀ {σa σb σc σd σe α β γ δ ε : Type} (ia : Iter σa α) (ib : Iter σb β)
      (ic : Iter σc γ) (id' : Iter σd δ) (ie' : Iter σe ε)
      (sa : σa) (sb : σb) (sc : σc) (sd : σd) (se : σe)
      (a : α) (sa' : σa) (b : β) (sb' : σb) (c : γ) (sc' : σc) (td : σd),
      ia.next sa = (some a, sa') → ib.next sb = (some b, sb') →
      ic.next sc = (some c, sc') → id'.next sd = (none, td) →
      ((Zip5 ia ib ic id' ie').next (sa, sb, sc, sd, se)).2.1 = sa' ∧
      ((Zip5 ia ib ic id' ie').next (sa, sb, sc, sd, se)).2.2.1 = sb' ∧
      ((Zip5 ia ib ic id' ie').next (sa, sb, sc, sd, se)).2.2.2.1 = sc') ∧
    (∀ {σa σb σc σd σe α β γ δ ε : Type} (ia : Iter σa α) (ib : Iter σb β)
      (ic : Iter σc γ) (id' : Iter σd δ) (ie' : Iter σe ε)
      (sa : σa) (sb : σb) (sc : σc) (sd : σd) (se : σe)
      (a : α) (sa' : σa) (b : β) (sb' : σb) (c : γ) (sc' : σc) (d : δ) (sd' : σd)
      (te : σe),
      ia.next sa = (some a, sa') → ib.next sb = (some b, sb') →
      ic.next sc = (some c, sc') → id'.next sd = (some d, sd') →
      ie'.next se = (none, te) →
      ((Zip5 ia ib ic id' ie').next (sa, sb, sc, sd, se)).2.1 = sa' ∧
      ((Zip5 ia ib ic id' ie').next (sa, sb, sc, sd, se)).2.2.1 = sb' ∧
      ((Zip5 ia ib ic id' ie').next (sa, sb, sc, sd, se)).2.2.2.1 = sc' ∧
      ((Zip5 ia ib ic id' ie').next (sa, sb, sc, sd, se)).2.2.2.2.1 = sd') ∧
    (∀ {α β : Type} (xs : List α) (ys : List β), ys.length < xs.length →
      ∀ (zs : List (α × β)) (tx : List α) (ty : List β),
        YieldsTo (Zip2 (listIter α) (listIter β)) (xs, ys) zs (tx, ty) →
        tx = xs.drop (min xs.length ys.length + 1)) := by
  refine ⟨?_, ?_, ?_, ?_, ?_, ?_, ?_, ?_, ?_, ?_, ?_⟩
  · intro _ _ _ _ ia ib sa sb a sa' tb h1 h2
    simp [Zip2, h1, h2]
  · intro _ _ _ _ _ _ ia ib ic sa sb sc a sa' tb h1 h2
    simp [Zip3, h1, h2]
  · intro _ _ _ _ _ _ ia ib ic sa sb sc a sa' b sb' tc h1 h2 h3
    simp [Zip3, h1, h2, h3]
  · intro _ _ _ _ _ _ _ _ ia ib ic id' sa sb sc sd a sa' tb h1 h2
    simp [Zip4, h1, h2]
  · intro _ _ _ _ _ _ _ _ ia ib ic id' sa sb sc sd a sa' b sb' tc h1 h2 h3
    simp [Zip4, h1, h2, h3]
  · intro _ _ _ _ _ _ _ _ ia ib ic id' sa sb sc sd a sa' b sb' c sc' td h1 h2 h3 h4
    simp [Zip4, h1, h2, h3, h4]
  · intro _ _ _ _ _ _ _ _ _ _ ia ib ic id' ie' sa sb sc sd se a sa' tb h1 h2
    simp [Zip5, h1, h2]
  · intro _ _ _ _ _ _ _ _ _ _ ia ib ic id' ie' sa sb sc sd se a sa' b sb' tc
      h1 h2 h3
    simp [Zip5, h1, h2, h3]
  · intro _ _ _ _ _ _ _ _ _ _ ia ib ic id' ie' sa sb sc sd se a sa' b sb' c sc'
      td h1 h2 h3 h4
    simp [Zip5, h1, h2, h3, h4]
  · intro _ _ _ _ _ _ _ _ _ _ ia ib ic id' ie' sa sb sc sd se a sa' b sb' c sc'
      d sd' te h1 h2 h3 h4 h5
    simp [Zip5, h1, h2, h3, h4, h5]
  · intro _ _ xs ys hlt zs tx ty hz
    have hfin := zip2_list_drain_final ys xs hlt
    obtain ⟨-, hstate⟩ := yieldsTo_unique hz hfin
    have htx : tx = xs.drop (ys.length + 1) := congrArg Prod.fst hstate
    rw [htx, Nat.min_eq_right (Nat.le_of_lt hlt)]

/-- C7 witness: draining Zip2 over [1,2,3] and [10,20] leaves the first
producer advanced past min 3 2 + 1 = 3 elements, at state []. -/
theorem c7_witness :
    ([] : List Nat) =
      ([1, 2, 3] : List Nat).drop
        (min ([1, 2, 3] : List Nat).length ([10, 20] : List Nat).length + 1) :=
  c7_earlier_pulls_consumed.2.2.2.2.2.2.2.2.2.2 [1, 2, 3] [10, 20] (by decide)
    [(1, 10), (2, 20)] [] []
    (YieldsTo.cons rfl (YieldsTo.cons rfl (YieldsTo.nil rfl)))

/-- C9: for every K in 2..5, when a call to `next` returns a tuple, each
component is the value pulled from the corresponding producer at its state
before the call, and the resulting state advances every producer by exactly
the single pull the call made. -/
theorem c9_success_advances_each_once :
    (∀ {σa σb α β : Type} (ia : Iter σa α) (ib : Iter σb β) (sa : σa) (sb : σb)
      (v1 : α) (v2 : β) (t : σa × σb),
      (Zip2 ia ib).next (sa, sb) = (some (v1, v2), t) →
      ∃ sa' sb', ia.next sa = (some v1, sa') ∧ ib.next sb = (some v2, sb') ∧
        t = (sa', sb')) ∧
    (∀ {σa σb σc α β γ : Type} (ia : Iter σa α) (ib : Iter σb β) (ic : Iter σc γ)
      (sa : σa) (sb : σb) (sc : σc) (v1 : α) (v2 : β) (v3 : γ) (t : σa × σb × σc),
      (Zip3 ia ib ic).next (sa, sb, sc) = (some (v1, v2, v3), t) →
      ∃ sa' sb' sc', ia.next sa = (some v1, sa') ∧ ib.next sb = (some v2, sb') ∧
        ic.next sc = (some v3, sc') ∧ t = (sa', sb', sc')) ∧
    (∀ {σa σb σc σd α β γ δ : Type} (ia : Iter σa α) (ib : Iter σb β)
      (ic : Iter σc γ) (id' : Iter σd δ) (sa : σa) (sb : σb) (sc : σc) (sd : σd)
      (v1 : α) (v2 : β) (v3 : γ) (v4 : δ) (t : σa × σb × σc × σd),
      (Zip4 ia ib ic id').next (sa, sb, sc, sd) = (some (v1, v2, v3, v4), t) →
      ∃ sa' sb' sc' sd', ia.next sa = (some v1, sa') ∧ ib.next sb = (some v2, sb') ∧
        ic.next sc = (some v3, sc') ∧ id'.next sd = (some v4, sd') ∧
        t = (sa', sb', sc', sd')) ∧
    (∀ {σa σb σc σd σe α β γ δ ε : Type} (ia : Iter σa α) (ib : Iter σb β)
      (ic : Iter σc γ) (id' : Iter σd δ) (ie' : Iter σe ε)
      (sa : σa) (sb : σb) (sc : σc) (sd : σd) (se : σe)
      (v1 : α) (v2 : β) (v3 : γ) (v4 : δ) (v5 : ε) (t : σa × σb × σc × σd × σe),
      (Zip5 ia ib ic id' ie').next (sa, sb, sc, sd, se) =
        (some (v1, v2, v3, v4, v5), t) →
      ∃ sa' sb' sc' sd' se', ia.next sa = (some v1, sa') ∧
        ib.next sb = (some v2, sb') ∧ ic.next sc = (some v3, sc') ∧
        id'.next sd = (some v4, sd') ∧ ie'.next se = (some v5, se') ∧
        t = (sa', sb', sc', sd', se')) := by
  refine ⟨?_, ?_, ?_, ?_⟩
  · intro _ _ _ _ ia ib sa sb v1 v2 t h
    rcases ha : ia.next sa with ⟨_ | a, sa'⟩
    · simp [Zip2, ha] at h
    rcases hb : ib.next sb with ⟨_ | b, sb'⟩
    · simp [Zip2, ha, hb] at h
    simp [Zip2, ha, hb] at h
    obtain ⟨⟨e1, e2⟩, et⟩ := h
    subst e1; subst e2
    exact ⟨sa', sb', rfl, rfl, et.symm⟩
  · intro _ _ _ _ _ _ ia ib ic sa sb sc v1 v2 v3 t h
    rcases ha : ia.next sa with ⟨_ | a, sa'⟩
    · simp [Zip3, ha] at h
    rcases hb : ib.next sb with ⟨_ | b, sb'⟩
    · simp [Zip3, ha, hb] at h
    rcases hc : ic.next sc with ⟨_ | c, sc'⟩
    · simp [Zip3, ha, hb, hc] at h
    simp [Zip3, ha, hb, hc] at h
    obtain ⟨⟨e1, e2, e3⟩, et⟩ := h
    subst e1; subst e2; subst e3
    exact ⟨sa', sb', sc', rfl, rfl, rfl, et.symm⟩
  · intro _ _ _ _ _ _ _ _ ia ib ic id' sa sb sc sd v1 v2 v3 v4 t h
    rcases ha : ia.next sa with ⟨_ | a, sa'⟩
    · simp [Zip4, ha] at h
    rcases hb : ib.next sb with ⟨_ | b, sb'⟩
    · simp [Zip4, ha, hb] at h
    rcases hc : ic.next sc with ⟨_ | c, sc'⟩
    · simp [Zip4, ha, hb, hc] at h
    rcases hd : id'.next sd with ⟨_ | d, sd'⟩
    · simp [Zip4, ha, hb, hc, hd] at h
    simp [Zip4, ha, hb, hc, hd] at h
    obtain ⟨⟨e1, e2, e3, e4⟩, et⟩ := h
    subst e1; subst e2; subst e3; subst e4
    exact ⟨sa', sb', sc', sd', rfl, rfl, rfl, rfl, et.symm⟩
  · intro _ _ _ _ _ _ _ _ _ _ ia ib ic id' ie' sa sb sc sd se v1 v2 v3 v4 v5 t h
    rcases ha : ia.next sa with ⟨_ | a, sa'⟩
    · simp [Zip5, ha] at h
    rcases hb : ib.next sb with ⟨_ | b, sb'⟩
    · simp [Zip5, ha, hb] at h
    rcases hc : ic.next sc with ⟨_ | c, sc'⟩
    · simp [Zip5, ha, hb, hc] at h
    rcases hd : id'.next sd with ⟨_ | d, sd'⟩
    · simp [Zip5, ha, hb, hc, hd] at h
    rcases he : ie'.next se with ⟨_ | e, se'⟩
    · simp [Zip5, ha, hb, hc, hd, he] at h
    simp [Zip5, ha, hb, hc, hd, he] at h
    obtain ⟨⟨e1, e2, e3, e4, e5⟩, et⟩ := h
    subst e1; subst e2; subst e3; subst e4; subst e5
    exact ⟨sa', sb', sc', sd', se', rfl, rfl, rfl, rfl, rfl, et.symm⟩

/-- C9 witness: a successful Zip2 call on ([7], [8]) pulls exactly one element
from each producer, and the new state is the pair of advanced states. -/
theorem c9_witness :
    ∃ (sa' : List Nat) (sb' : List Nat),
      (listIter Nat).next [7] = (some 7, sa') ∧
      (listIter Nat).next [8] = (some 8, sb') ∧
      (([] : List Nat), ([] : List Nat)) = (sa', sb') :=
  c9_success_advances_each_once.1 (listIter Nat) (listIter Nat) [7] [8] 7 8
    ([], []) rfl

/-- C8: Zip2 wrapping (Zip2 of P1, P2) and P3 drains to a sequence of the same
length as Zip3 of P1, P2, P3, and flattening each ((a,b),c) element to
(a,b,c) yields exactly the Zip3 sequence; the elements of the former have the
nested shape ((a,b),c), distinct from Zip3's (a,b,c). -/
theorem c8_nested_zip2_matches_zip3 :
    ∀ {σ1 σ2 σ3 α β γ : Type} (p1 : Iter σ1 α) (p2 : Iter σ2 β) (p3 : Iter σ3 γ)
      (s1 : σ1) (s2 : σ2) (s3 : σ3) (xs : List α) (ys : List β) (zs : List γ)
      (t1 : σ1) (t2 : σ2) (t3 : σ3),
      YieldsTo p1 s1 xs t1 → YieldsTo p2 s2 ys t2 → YieldsTo p3 s3 zs t3 →
      ∀ (ws : List ((α × β) × γ)) (tw : (σ1 × σ2) × σ3),
        YieldsTo (Zip2 (Zip2 p1 p2) p3) ((s1, s2), s3) ws tw →
      ∀ (vs : List (α × β × γ)) (tv : σ1 × σ2 × σ3),
        YieldsTo (Zip3 p1 p2 p3) (s1, s2, s3) vs tv →
        ws.length = vs.length ∧ ws.map (fun p => (p.1.1, p.1.2, p.2)) = vs := by
  intro _ _ _ _ _ _ p1 p2 p3 s1 s2 s3 xs ys zs t1 t2 t3 h1 h2 h3 ws tw hw vs tv hv
  obtain ⟨t12, h12⟩ := zip2_drain h1 h2
  obtain ⟨tz, ho⟩ := zip2_drain h12 h3
  obtain ⟨hwe, -⟩ := yieldsTo_unique hw ho
  obtain ⟨t3', h3'⟩ := zip3_drain h1 h2 h3
  obtain ⟨hve, -⟩ := yieldsTo_unique hv h3'
  subst hwe hve
  refine ⟨?_, zip_zip_flatten xs ys zs⟩
  rw [← zip_zip_flatten xs ys zs, List.length_map]

/-- C8 witness: with producers [1], [2], [3], the nested Zip2 drains to
[((1,2),3)] and Zip3 to [(1,2,3)]: equal lengths and flattening agrees. -/
theorem c8_witness :
    ([(((1 : Nat), (2 : Nat)), (3 : Nat))]).length =
        ([((1 : Nat), (2 : Nat), (3 : Nat))]).length ∧
      ([(((1 : Nat), (2 : Nat)), (3 : Nat))]).map (fun p => (p.1.1, p.1.2, p.2)) =
        [((1 : Nat), (2 : Nat), (3 : Nat))] :=
  c8_nested_zip2_matches_zip3 (listIter Nat) (listIter Nat) (listIter Nat)
    [1] [2] [3] [1] [2] [3] [] [] []
    (listIter_yieldsTo _) (listIter_yieldsTo _) (listIter_yieldsTo _)
    [((1, 2), 3)] (([], []), [])
    (YieldsTo.cons rfl (YieldsTo.nil rfl))
    [(1, 2, 3)] ([], [], [])
    (YieldsTo.cons rfl (YieldsTo.nil rfl))

/-- C10: the sequence drained from Zip2(ys, xs) is the element-wise swap of
the sequence drained from Zip2(xs, ys). -/
theorem c10_zip2_swap :
    ∀ {σa σb α β : Type} (ia : Iter σa α) (ib : Iter σb β) (sa : σa) (sb : σb)
      (xs : List α) (ys : List β) (ta : σa) (tb : σb),
      YieldsTo ia sa xs ta → YieldsTo ib sb ys tb →
      ∀ (zs : List (α × β)) (t : σa × σb),
        YieldsTo (Zip2 ia ib) (sa, sb) zs t →
      ∀ (ws : List (β × α)) (u : σb × σa),
        YieldsTo (Zip2 ib ia) (sb, sa) ws u →
        ws = zs.map (fun p => (p.2, p.1)) := by
  intro _ _ _ _ ia ib sa sb xs ys ta tb ha hb zs t hz ws u hw
  obtain ⟨t1, h1⟩ := zip2_drain ha hb
  obtain ⟨hze, -⟩ := yieldsTo_unique hz h1
  obtain ⟨t2, h2⟩ := zip2_drain hb ha
  obtain ⟨hwe, -⟩ := yieldsTo_unique hw h2
  subst hze hwe
  exact zip_comm_swap xs ys

/-- C10 witness: Zip2([10,20],[1,2,3]) drains to [(10,1),(20,2)], the swap of
Zip2([1,2,3],[10,20])'s drain [(1,10),(2,20)]. -/
theorem c10_witness :
    ([((10 : Nat), (1 : Nat)), (20, 2)]) =
      ([((1 : Nat), (10 : Nat)), (2, 20)]).map (fun p => (p.2, p.1)) :=
  c10_zip2_swap (listIter Nat) (listIter Nat) [1, 2, 3] [10, 20]
    [1, 2, 3] [10, 20] [] [] (listIter_yieldsTo _) (listIter_yieldsTo _)
    [(1, 10), (2, 20)] ([], [])
    (YieldsTo.cons rfl (YieldsTo.cons rfl (YieldsTo.nil rfl)))
    [(10, 1), (20, 2)] ([], [3])
    (YieldsTo.cons rfl (YieldsTo.cons rfl (YieldsTo.nil rfl)))

end ZipRs
